import Mathlib

/-! Netter: the attach / detach workflow of `main.go`.

A shallow embedding of `cmdAdd` and `cmdDel` (src/main.go).  Both functions are
sequences of calls into external libraries (`ns`, `netlink`, `ipam`, `ip`,
`types`).  The embedding makes the outcome of every such call site a field of
an environment `Env`, and a run of the function yields

* the ordered log of the external calls it issued (with their arguments), and
* the way the function ended: it returned an `error` value (possibly `nil`),
  or it panicked.

Go strings are byte sequences; slicing `s[:8]` counts bytes.
-/

namespace Netter

/-! ## Values -/

/-- A Go `string`: an immutable sequence of bytes. -/
abbrev GoString := List UInt8

/-- The bytes of a string literal of the source (Go source text is UTF-8). -/
def go (s : String) : GoString := s.toUTF8.data.toList

/-- A Go `error` value.  `lib` is an error produced by an external library
call; `errorf` is `fmt.Errorf(format, operands..., cause)` with the format
string kept verbatim, the string operands in order and the wrapped cause. -/
inductive GoError where
  | lib (msg : String)
  | errorf (format : String) (operands : List GoString) (cause : GoError)
  deriving DecidableEq, Repr

/-- A run-time panic of the Go runtime. -/
inductive Panic where
  /-- Evaluating `s[:hi]` with `hi > len(s)`. -/
  | sliceBounds (hi len : Nat)
  /-- Evaluating `xs[i]` with `i >= len(xs)`. -/
  | indexOutOfRange (i len : Nat)
  deriving DecidableEq, Repr

/-- The fields of `skel.CmdArgs` that `main.go` reads. -/
structure CmdArgs where
  ContainerID : GoString
  Netns : GoString
  IfName : GoString
  StdinData : GoString
  deriving DecidableEq, Repr

/-- The handle returned by `ns.GetNS`: the namespace path it was opened from
and its file descriptor (`netns.Fd()`). -/
structure NetNS where
  Path : GoString
  Fd : Nat
  deriving DecidableEq, Repr

/-- The value `&netlink.Veth{LinkAttrs: {Name, MTU}, PeerName}` built at
main.go lines 35-38. -/
structure Veth where
  Name : GoString
  MTU : Nat
  PeerName : GoString
  deriving DecidableEq, Repr

/-- A `netlink.Link` as returned by `netlink.LinkByName`. -/
structure Link where
  Name : GoString
  Index : Nat
  deriving DecidableEq, Repr

/-- An IPv4 address as its 32-bit value. -/
abbrev NetIP := Nat

/-- A `net.IPNet`: an address and the number of leading one bits of its mask. -/
structure IPNet where
  IP : NetIP
  Ones : Nat
  deriving DecidableEq, Repr

/-- The test `net.IPNet.Contains`: the address agrees with the network on the
masked bits. -/
def IPNet.Contains (n : IPNet) (ip : NetIP) : Bool :=
  (ip % 2 ^ 32) / 2 ^ (32 - n.Ones) == (n.IP % 2 ^ 32) / 2 ^ (32 - n.Ones)

/-- The network `0.0.0.0/0` obtained by `net.ParseCIDR("0.0.0.0/0")`
(main.go line 82). -/
def defaultNet : IPNet := { IP := 0, Ones := 0 }

/-- An entry of `Result.Interfaces`: name and sandbox (namespace path). -/
structure Interface where
  Name : GoString
  Sandbox : GoString
  deriving DecidableEq, Repr

/-- An entry of `Result.IPs`. -/
structure IPConfig where
  Interface : Option Nat
  Address : IPNet
  Gateway : NetIP
  deriving DecidableEq, Repr

/-- An entry of `Result.Routes`. -/
structure Route where
  Dst : IPNet
  GW : NetIP
  deriving DecidableEq, Repr

/-- The versioned result `*current.Result`. -/
structure Result where
  CNIVersion : GoString
  Interfaces : List Interface
  IPs : List IPConfig
  Routes : List Route
  deriving DecidableEq, Repr

/-- The method `result.Version()`. -/
def Result.Version (r : Result) : GoString := r.CNIVersion

/-- The `types.Result` interface value returned by `ipam.ExecAdd`, before its
conversion by `current.GetResult`: the bytes the allocator replied with. -/
structure RawResult where
  Reply : GoString
  deriving DecidableEq, Repr

/-- The value `&netlink.Addr{IPNet: ...}` built at main.go line 76. -/
structure Addr where
  IPNet : IPNet
  deriving DecidableEq, Repr

/-! ## External calls -/

/-- An external library call together with its arguments. -/
inductive Call where
  /-- The call `ns.GetNS(path)`. -/
  | GetNS (path : GoString)
  /-- The call `netns.Close()`. -/
  | Close (netns : NetNS)
  /-- The call `netlink.LinkAdd(link)`. -/
  | LinkAdd (link : Veth)
  /-- The call `netlink.LinkByName(name)`. -/
  | LinkByName (name : GoString)
  /-- The call `netlink.LinkSetNsFd(link, fd)`. -/
  | LinkSetNsFd (link : Link) (fd : Nat)
  /-- The call `netlink.LinkDel` on the named link: the removal a rollback of
  the link pair would issue.  `main.go` has no call site for it. -/
  | LinkDel (name : GoString)
  /-- The call `ipam.ExecAdd(plugin, netconf)`: the allocator request. -/
  | ExecAdd (plugin : GoString) (netconf : GoString)
  /-- The call `ipam.ExecDel(plugin, netconf)`: the allocator release. -/
  | ExecDel (plugin : GoString) (netconf : GoString)
  /-- The call `current.GetResult(r)`. -/
  | GetResult (r : RawResult)
  /-- The call `ip.EnableIP4Forwarding()`. -/
  | EnableIP4Forwarding
  /-- The call `netlink.LinkSetUp(link)`. -/
  | LinkSetUp (link : Link)
  /-- The call `netlink.LinkAddAddr(link, addr)`. -/
  | LinkAddAddr (link : Link) (addr : Addr)
  /-- The call `ip.AddRoute(ipn, gw, dev)`. -/
  | AddRoute (ipn : IPNet) (gw : NetIP) (dev : Link)
  /-- The call `types.PrintResult(result, version)`. -/
  | PrintResult (result : Result) (version : GoString)
  deriving DecidableEq, Repr

/-- A logged call: the call and the namespace context it was issued in
(`none`: the context the process started in; `some n`: inside `n.Do`). -/
structure Event where
  inNs : Option NetNS
  call : Call
  deriving DecidableEq, Repr

/-- How a function ended. -/
inductive Exit where
  | returned (err : Option GoError)
  | panicked (p : Panic)
  deriving DecidableEq, Repr

/-- A run of a function: the calls it issued, oldest first, and how it ended. -/
structure Run where
  log : List Event
  exit : Exit
  deriving DecidableEq, Repr

namespace Run

/-- The statement `return err`. -/
def ret (err : Option GoError) : Run := { log := [], exit := .returned err }

/-- A run-time panic at this point. -/
def panic (p : Panic) : Run := { log := [], exit := .panicked p }

/-- Issue the external call `c`, then continue as `k`. -/
def call (c : Call) (k : Run) : Run :=
  { log := { inNs := none, call := c } :: k.log, exit := k.exit }

/-- The statement `defer c` followed by the rest `body` of the function:
the call `c` runs when the function ends, by return or by panic. -/
def defer (c : Call) (body : Run) : Run :=
  { log := body.log ++ [{ inNs := none, call := c }], exit := body.exit }

/-- Run `first` (a callee returning `error`), then continue with the error
value it returned; a panic in `first` unwinds through the caller. -/
def andThen (first : Run) (k : Option GoError → Run) : Run :=
  match first.exit with
  | .returned err => { log := first.log ++ (k err).log, exit := (k err).exit }
  | .panicked p => { log := first.log, exit := .panicked p }

end Run

/-- Modelled from the spec: `ns.NetNS.Do` is library code outside the sources.
Per spec sections 4.2 and 9 it enters the namespace, runs the given steps
under that one namespace context, restores the prior context on exit and hands
back the error of the steps.  Here: every call of `toRun` is issued inside
`netns`, and the run ends as `toRun` ends. -/
def NetNS.Do (netns : NetNS) (toRun : Run) : Run :=
  { log := toRun.log.map (fun e => { e with inNs := some netns }), exit := toRun.exit }

/-- The outcome of every external call site of `main.go`: `none` / `.ok` is
success, `some err` / `.error err` is the `error` the library returned. -/
structure Env where
  /-- The outcome of `ns.GetNS(args.Netns)`, line 27. -/
  GetNS : Except GoError NetNS
  /-- The outcome of `netlink.LinkAdd(hostIface)`, line 39. -/
  LinkAdd : Option GoError
  /-- The outcome of `netlink.LinkByName(args.IfName)` on the host, line 44. -/
  LinkByName : Except GoError Link
  /-- The outcome of `netlink.LinkSetNsFd(peer, fd)`, line 48. -/
  LinkSetNsFd : Option GoError
  /-- The outcome of `ipam.ExecAdd("host-local", args.StdinData)`, line 53. -/
  ExecAdd : Except GoError RawResult
  /-- The outcome of `current.GetResult(r)`, line 57. -/
  GetResult : Except GoError Result
  /-- The outcome of `ip.EnableIP4Forwarding()`, line 65. -/
  EnableIP4Forwarding : Option GoError
  /-- The outcome of `netlink.LinkByName(args.IfName)` in the namespace, line 68. -/
  NsLinkByName : Except GoError Link
  /-- The outcome of `netlink.LinkSetUp(link)`, line 72. -/
  LinkSetUp : Option GoError
  /-- The outcome of `netlink.LinkAddAddr(link, addr)`, line 77. -/
  LinkAddAddr : Option GoError
  /-- The outcome of `ip.AddRoute(defaultNet, gw, link)`, line 83. -/
  AddRoute : Option GoError
  /-- The outcome of `types.PrintResult(result, result.Version())`, line 93. -/
  PrintResult : Option GoError
  /-- The outcome of `ipam.ExecDel("host-local", args.StdinData)`, line 98. -/
  ExecDel : Option GoError

/-! ## The program -/

/-- The slice expression `s[:n]`: out of range when `n > len(s)`. -/
def sliceTo (s : GoString) (n : Nat) : Except Panic GoString :=
  if n ≤ s.length then .ok (s.take n) else .error (.sliceBounds n s.length)

/-- The index expression `xs[i]`: out of range when `i >= len(xs)`. -/
def index {α : Type} (xs : List α) (i : Nat) : Except Panic α :=
  match xs[i]? with
  | some x => .ok x
  | none => .error (.indexOutOfRange i xs.length)

/-- The name of the host end of the veth pair, main.go line 34:
`fmt.Sprintf("veth%s", args.ContainerID[:8])`. -/
def hostIfaceName (containerID : GoString) : Except Panic GoString :=
  match sliceTo containerID 8 with
  | .error p => .error p
  | .ok id8 => .ok (go "veth" ++ id8)

/-- The closure passed to `netns.Do`, main.go lines 63-87. -/
def configure (env : Env) (args : CmdArgs) (result : Result) : Run :=
  .call .EnableIP4Forwarding <|
  match env.EnableIP4Forwarding with
  | some err => .ret (some (.errorf "failed to enable forwarding: %v" [] err))
  | none =>
  .call (.LinkByName args.IfName) <|
  match env.NsLinkByName with
  | .error err => .ret (some err)
  | .ok link =>
  .call (.LinkSetUp link) <|
  match env.LinkSetUp with
  | some err => .ret (some err)
  | none =>
  match index result.IPs 0 with
  | .error p => .panic p
  | .ok ip0 =>
  let addr : Addr := { IPNet := ip0.Address }
  .call (.LinkAddAddr link addr) <|
  match env.LinkAddAddr with
  | some err => .ret (some err)
  | none =>
  match index result.IPs 0 with
  | .error p => .panic p
  | .ok ip0 =>
  let gw := ip0.Gateway
  .call (.AddRoute defaultNet gw link) <|
  match env.AddRoute with
  | some err => .ret (some err)
  | none => .ret none

/-- The function `cmdAdd`, main.go lines 25-94. -/
def cmdAdd (env : Env) (args : CmdArgs) : Run :=
  .call (.GetNS args.Netns) <|
  match env.GetNS with
  | .error err =>
    .ret (some (.errorf "failed to open netns %q: %v" [args.Netns] err))
  | .ok netns =>
  .defer (.Close netns) <|
  match hostIfaceName args.ContainerID with
  | .error p => .panic p
  | .ok hostIfaceName =>
  let hostIface : Veth :=
    { Name := hostIfaceName, MTU := 1500, PeerName := args.IfName }
  .call (.LinkAdd hostIface) <|
  match env.LinkAdd with
  | some err => .ret (some (.errorf "failed to create veth pair: %v" [] err))
  | none =>
  .call (.LinkByName args.IfName) <|
  match env.LinkByName with
  | .error err =>
    .ret (some (.errorf "failed to find peer interface %s: %v" [args.IfName] err))
  | .ok peer =>
  .call (.LinkSetNsFd peer netns.Fd) <|
  match env.LinkSetNsFd with
  | some err => .ret (some (.errorf "failed to move peer to netns: %v" [] err))
  | none =>
  .call (.ExecAdd (go "host-local") args.StdinData) <|
  match env.ExecAdd with
  | .error err => .ret (some err)
  | .ok r =>
  .call (.GetResult r) <|
  match env.GetResult with
  | .error err => .ret (some err)
  | .ok result =>
  (netns.Do (configure env args result)).andThen fun err =>
  match err with
  | some err => .ret (some err)
  | none =>
  .call (.PrintResult result result.Version) <|
  .ret env.PrintResult

/-- The function `cmdDel`, main.go lines 97-102. -/
def cmdDel (env : Env) (args : CmdArgs) : Run :=
  .call (.ExecDel (go "host-local") args.StdinData) <|
  match env.ExecDel with
  | some err => .ret (some err)
  | none => .ret none

/-! ## Reading a log -/

/-- The kinds of operation a log can hold.  The first twelve are the steps of
Attach; the last three are the deferred close of the namespace handle and the
two compensating operations of spec section 4. -/
inductive Op where
  | openNamespace
  | createLinkPair
  | lookUpPeer
  | movePeer
  | requestLease
  | convertResult
  | enableForwarding
  | lookUpInterface
  | setUp
  | addAddress
  | addRoute
  | printResult
  | closeNamespace
  | removeLink
  | releaseLease
  deriving DecidableEq, Repr

/-- The kind of a logged call.  `netlink.LinkByName` is the peer lookup on the
host and the interface lookup inside the target namespace. -/
def Event.op (e : Event) : Op :=
  match e.call, e.inNs with
  | .GetNS _, _ => .openNamespace
  | .Close _, _ => .closeNamespace
  | .LinkAdd _, _ => .createLinkPair
  | .LinkByName _, none => .lookUpPeer
  | .LinkByName _, some _ => .lookUpInterface
  | .LinkSetNsFd _ _, _ => .movePeer
  | .LinkDel _, _ => .removeLink
  | .ExecAdd _ _, _ => .requestLease
  | .ExecDel _ _, _ => .releaseLease
  | .GetResult _, _ => .convertResult
  | .EnableIP4Forwarding, _ => .enableForwarding
  | .LinkSetUp _, _ => .setUp
  | .LinkAddAddr _ _, _ => .addAddress
  | .AddRoute _ _ _, _ => .addRoute
  | .PrintResult _ _, _ => .printResult

/-- The fixed order of the steps of Attach. -/
def attachOrder : List Op :=
  [.openNamespace, .createLinkPair, .lookUpPeer, .movePeer, .requestLease,
   .convertResult, .enableForwarding, .lookUpInterface, .setUp, .addAddress,
   .addRoute, .printResult]

/-- Whether the environment makes the call site of a step fail. -/
def Env.failed (env : Env) : Op → Bool
  | .openNamespace => match env.GetNS with | .ok _ => false | .error _ => true
  | .createLinkPair => env.LinkAdd.isSome
  | .lookUpPeer => match env.LinkByName with | .ok _ => false | .error _ => true
  | .movePeer => env.LinkSetNsFd.isSome
  | .requestLease => match env.ExecAdd with | .ok _ => false | .error _ => true
  | .convertResult => match env.GetResult with | .ok _ => false | .error _ => true
  | .enableForwarding => env.EnableIP4Forwarding.isSome
  | .lookUpInterface => match env.NsLinkByName with | .ok _ => false | .error _ => true
  | .setUp => env.LinkSetUp.isSome
  | .addAddress => env.LinkAddAddr.isSome
  | .addRoute => env.AddRoute.isSome
  | .printResult => env.PrintResult.isSome
  | .closeNamespace => false
  | .removeLink => false
  | .releaseLease => env.ExecDel.isSome

/-- The steps of `order` up to and including the first failing one (all of
`order` when none fails). -/
def throughFirstFailure (failed : Op → Bool) : List Op → List Op
  | [] => []
  | op :: rest => if failed op then [op] else op :: throughFirstFailure failed rest

/-- The namespace context of each step of Attach in an environment: the five
configuration steps (enable forwarding, look up interface, set up, add
address, add route) belong inside the target namespace, which is the handle
`ns.GetNS` returned; every other operation belongs to the context the process
started in. -/
def Env.context (env : Env) : Op → Option NetNS
  | .enableForwarding | .lookUpInterface | .setUp | .addAddress | .addRoute =>
    match env.GetNS with
    | .ok netns => some netns
    | .error _ => none
  | _ => none

/-- The kind of a logged call together with the namespace context it was
issued in. -/
def Event.site (e : Event) : Op × Option NetNS := (e.op, e.inNs)

/-- Whether a logged call is the allocator's release operation. -/
def Event.isRelease (e : Event) : Bool :=
  match e.call with
  | .ExecDel _ _ => true
  | _ => false

/-- Whether a logged call removes a link. -/
def Event.isLinkDel (e : Event) : Bool :=
  match e.call with
  | .LinkDel _ => true
  | _ => false

/-- Modelled from the spec: the platform's interface-name length limit of
spec section 3 is not in the sources; on Linux it is `IFNAMSIZ - 1 = 15`
bytes. -/
def ifNameLimit : Nat := 15

/-! ## Concrete inputs -/

/-- A target namespace handle. -/
def nsA : NetNS := { Path := go "/var/run/netns/a", Fd := 3 }

/-- A lease in `10.10.1.0/24`: address `10.10.1.2/24`, gateway `10.10.1.1`. -/
def leaseA : Result :=
  { CNIVersion := go "1.0.0", Interfaces := [],
    IPs := [{ Interface := none, Address := { IP := 0x0A0A0102, Ones := 24 },
              Gateway := 0x0A0A0101 }],
    Routes := [] }

/-- An environment in which every call succeeds. -/
def envOk : Env :=
  { GetNS := .ok nsA, LinkAdd := none, LinkByName := .ok { Name := go "eth0", Index := 7 },
    LinkSetNsFd := none, ExecAdd := .ok { Reply := go "reply" }, GetResult := .ok leaseA,
    EnableIP4Forwarding := none, NsLinkByName := .ok { Name := go "eth0", Index := 2 },
    LinkSetUp := none, LinkAddAddr := none, AddRoute := none, PrintResult := none,
    ExecDel := none }

/-- The request of Scenario A: identity `abcdef1234`, interface `eth0`. -/
def argsA : CmdArgs :=
  { ContainerID := go "abcdef1234", Netns := go "/var/run/netns/a", IfName := go "eth0",
    StdinData := go "netconf" }

/-- As `envOk`, but bringing the interface up fails inside the namespace. -/
def envSetUpFails : Env := { envOk with LinkSetUp := some (.lib "network is down") }

/-- As `envOk`, but moving the peer into the target namespace fails. -/
def envMoveFails : Env := { envOk with LinkSetNsFd := some (.lib "bad file descriptor") }

/-- As `envOk`, but the allocator's release reports that there is no lease. -/
def envLeaseNotFound : Env := { envOk with ExecDel := some (.lib "lease not found") }

/-- A lease whose gateway `192.168.0.1` lies outside `10.10.1.0/24`. -/
def leaseOutside : Result :=
  { CNIVersion := go "1.0.0", Interfaces := [],
    IPs := [{ Interface := none, Address := { IP := 0x0A0A0102, Ones := 24 },
              Gateway := 0xC0A80001 }],
    Routes := [] }

/-- As `envOk`, but the allocator leases `leaseOutside` and the route
installation is refused. -/
def envGatewayOutside : Env :=
  { envOk with GetResult := .ok leaseOutside,
               AddRoute := some (.lib "network is unreachable") }

/-- An allocator reply that converts to a result without IP entries. -/
def leaseEmpty : Result :=
  { CNIVersion := go "1.0.0", Interfaces := [], IPs := [], Routes := [] }

/-- As `envOk`, but the allocator's reply has no IP entries. -/
def envEmptyLease : Env := { envOk with GetResult := .ok leaseEmpty }

/-- A request whose container identity has 3 bytes. -/
def argsShort : CmdArgs := { argsA with ContainerID := go "abc" }

/-- Two requests whose distinct identities share their first 8 bytes. -/
def argsB1 : CmdArgs := { argsA with ContainerID := go "abcdefgh1" }

/-- The second request sharing the 8-byte head `abcdefgh`. -/
def argsB2 : CmdArgs := { argsA with ContainerID := go "abcdefgh2" }

/-! ## Shared lemmas -/

/-- No path through `cmdAdd` issues the allocator's release operation. -/
theorem cmdAdd_log_no_release (env : Env) (args : CmdArgs) :
    (cmdAdd env args).log.countP Event.isRelease = 0 := by
  obtain ⟨g, la, lb, ls, ea, gr, ef, nl, su, aa, ar, pr, ed⟩ := env
  simp only [cmdAdd, configure]
  repeat' split
  all_goals simp_all [Run.call, Run.ret, Run.defer, Run.andThen, Run.panic, NetNS.Do,
    Event.isRelease, List.countP_cons, List.countP_append]

/-- No path through `cmdAdd` issues a link removal. -/
theorem cmdAdd_log_no_linkDel (env : Env) (args : CmdArgs) :
    (cmdAdd env args).log.any Event.isLinkDel = false := by
  obtain ⟨g, la, lb, ls, ea, gr, ef, nl, su, aa, ar, pr, ed⟩ := env
  simp only [cmdAdd, configure]
  repeat' split
  all_goals simp_all [Run.call, Run.ret, Run.defer, Run.andThen, Run.panic, NetNS.Do,
    Event.isLinkDel]

/-- The run of `cmdAdd` once the lease was obtained and converted: the six
host-side calls, then the closure inside the namespace, then the printing of
the result when the closure returned `nil`, then the deferred close. -/
theorem cmdAdd_after_lease (env : Env) (args : CmdArgs) (netns : NetNS) (peer : Link)
    (r : RawResult) (result : Result)
    (hns : env.GetNS = .ok netns) (hid : 8 ≤ args.ContainerID.length)
    (hadd : env.LinkAdd = none) (hpeer : env.LinkByName = .ok peer)
    (hmove : env.LinkSetNsFd = none) (hreq : env.ExecAdd = .ok r)
    (hconv : env.GetResult = .ok result) :
    cmdAdd env args =
      .call (.GetNS args.Netns) (.defer (.Close netns)
        (.call (.LinkAdd { Name := go "veth" ++ args.ContainerID.take 8, MTU := 1500,
                           PeerName := args.IfName })
        (.call (.LinkByName args.IfName)
        (.call (.LinkSetNsFd peer netns.Fd)
        (.call (.ExecAdd (go "host-local") args.StdinData)
        (.call (.GetResult r)
        ((netns.Do (configure env args result)).andThen fun err =>
          match err with
          | some err => .ret (some err)
          | none => .call (.PrintResult result result.Version) (.ret env.PrintResult)))))))) := by
  simp [cmdAdd, hostIfaceName, sliceTo, hns, hid, hadd, hpeer, hmove, hreq, hconv]

/-- Every link creation requested by `cmdAdd` names the host end `veth` plus
the first 8 bytes of the identity. -/
theorem cmdAdd_linkAdd_name (env : Env) (args : CmdArgs) (hid : 8 ≤ args.ContainerID.length) :
    ∀ e ∈ (cmdAdd env args).log, ∀ link, e.call = .LinkAdd link →
      link.Name = go "veth" ++ args.ContainerID.take 8 := by
  obtain ⟨g, la, lb, ls, ea, gr, ef, nl, su, aa, ar, pr, ed⟩ := env
  simp only [cmdAdd, configure, hostIfaceName, sliceTo, hid, if_true]
  repeat' split
  all_goals simp_all [Run.call, Run.ret, Run.defer, Run.andThen, Run.panic, NetNS.Do]

/-! ## C1: lease release after a configuration failure -/

/-- C1, as stated, fails: with a lease obtained and `netlink.LinkSetUp`
failing inside the namespace, `cmdAdd` returns the error and the release
operation was invoked zero times, not once. -/
theorem cmdAdd_setup_failure_leaks_lease :
    envSetUpFails.ExecAdd = .ok { Reply := go "reply" } ∧
    envSetUpFails.failed .setUp = true ∧
    { inNs := none, call := .ExecAdd (go "host-local") argsA.StdinData }
      ∈ (cmdAdd envSetUpFails argsA).log ∧
    (cmdAdd envSetUpFails argsA).exit = .returned (some (.lib "network is down")) ∧
    ¬ (cmdAdd envSetUpFails argsA).log.countP Event.isRelease = 1 := by
  refine ⟨rfl, ?_⟩
  decide

/-- C1, amended: for every execution of `cmdAdd` in which the allocator request
succeeds (all earlier steps having succeeded, the reply converting to
`result`) and the in-namespace configuration returns an error `err`, `cmdAdd`
returns that same error, the allocator request is in the log, and the
allocator's release operation is invoked zero times. -/
theorem cmdAdd_config_failure_keeps_lease (env : Env) (args : CmdArgs) (netns : NetNS)
    (peer : Link) (r : RawResult) (result : Result) (err : GoError)
    (hns : env.GetNS = .ok netns) (hid : 8 ≤ args.ContainerID.length)
    (hadd : env.LinkAdd = none) (hpeer : env.LinkByName = .ok peer)
    (hmove : env.LinkSetNsFd = none) (hreq : env.ExecAdd = .ok r)
    (hconv : env.GetResult = .ok result)
    (hfail : (configure env args result).exit = .returned (some err)) :
    (cmdAdd env args).exit = .returned (some err) ∧
    { inNs := none, call := .ExecAdd (go "host-local") args.StdinData } ∈ (cmdAdd env args).log ∧
    (cmdAdd env args).log.countP Event.isRelease = 0 := by
  refine ⟨?_, ?_, cmdAdd_log_no_release env args⟩
  · rw [cmdAdd_after_lease env args netns peer r result hns hid hadd hpeer hmove hreq hconv]
    simp [Run.call, Run.defer, Run.andThen, NetNS.Do, hfail, Run.ret]
  · rw [cmdAdd_after_lease env args netns peer r result hns hid hadd hpeer hmove hreq hconv]
    simp [Run.call, Run.defer, Run.andThen, NetNS.Do, hfail, Run.ret]

/-- The amended C1 at the concrete run in which `netlink.LinkSetUp` fails. -/
theorem cmdAdd_config_failure_keeps_lease_witness :
    (configure envSetUpFails argsA leaseA).exit = .returned (some (.lib "network is down")) ∧
    (cmdAdd envSetUpFails argsA).exit = .returned (some (.lib "network is down")) ∧
    { inNs := none, call := .ExecAdd (go "host-local") argsA.StdinData }
      ∈ (cmdAdd envSetUpFails argsA).log ∧
    (cmdAdd envSetUpFails argsA).log.countP Event.isRelease = 0 :=
  ⟨by decide,
   cmdAdd_config_failure_keeps_lease envSetUpFails argsA nsA { Name := go "eth0", Index := 7 }
     { Reply := go "reply" } leaseA (.lib "network is down") rfl (by decide) rfl rfl rfl rfl rfl
     (by decide)⟩

/-! ## C2: rollback of the link pair -/

/-- C2, as stated, fails: with the pair created and the move failing, `cmdAdd`
returns the error after issuing exactly the four calls up to the move and
the deferred close; no link removal is among them. -/
theorem cmdAdd_move_failure_leaves_link :
    envMoveFails.LinkAdd = none ∧
    (cmdAdd envMoveFails argsA).log =
      [{ inNs := none, call := .GetNS (go "/var/run/netns/a") },
       { inNs := none, call := .LinkAdd { Name := go "vethabcdef12", MTU := 1500,
                                          PeerName := go "eth0" } },
       { inNs := none, call := .LinkByName (go "eth0") },
       { inNs := none, call := .LinkSetNsFd { Name := go "eth0", Index := 7 } 3 },
       { inNs := none, call := .Close nsA }] ∧
    (cmdAdd envMoveFails argsA).exit =
      .returned (some (.errorf "failed to move peer to netns: %v" []
        (.lib "bad file descriptor"))) ∧
    (cmdAdd envMoveFails argsA).log.any Event.isLinkDel = false := by
  decide

/-- C2, amended: for every execution of `cmdAdd` in which the veth pair is
created and moving the peer into the target namespace fails with `err`,
`cmdAdd` returns `err` wrapped as "failed to move peer to netns", and its calls
are exactly: open namespace, create pair, look up peer, move peer, and
the deferred close of the namespace handle.  No link removal is issued, so
the pair created by the call is left in place. -/
theorem cmdAdd_move_failure_no_rollback (env : Env) (args : CmdArgs) (netns : NetNS)
    (peer : Link) (err : GoError)
    (hns : env.GetNS = .ok netns) (hid : 8 ≤ args.ContainerID.length)
    (hadd : env.LinkAdd = none) (hpeer : env.LinkByName = .ok peer)
    (hmove : env.LinkSetNsFd = some err) :
    (cmdAdd env args).exit =
      .returned (some (.errorf "failed to move peer to netns: %v" [] err)) ∧
    (cmdAdd env args).log =
      [{ inNs := none, call := .GetNS args.Netns },
       { inNs := none, call := .LinkAdd { Name := go "veth" ++ args.ContainerID.take 8,
                                          MTU := 1500, PeerName := args.IfName } },
       { inNs := none, call := .LinkByName args.IfName },
       { inNs := none, call := .LinkSetNsFd peer netns.Fd },
       { inNs := none, call := .Close netns }] ∧
    (cmdAdd env args).log.any Event.isLinkDel = false := by
  refine ⟨?_, ?_, cmdAdd_log_no_linkDel env args⟩ <;>
    simp [cmdAdd, hostIfaceName, sliceTo, hns, hid, hadd, hpeer, hmove, Run.call, Run.defer,
      Run.ret]

/-- The amended C2 at the concrete run in which the move fails. -/
theorem cmdAdd_move_failure_no_rollback_witness :
    (cmdAdd envMoveFails argsA).exit =
      .returned (some (.errorf "failed to move peer to netns: %v" []
        (.lib "bad file descriptor"))) ∧
    (cmdAdd envMoveFails argsA).log =
      [{ inNs := none, call := .GetNS argsA.Netns },
       { inNs := none, call := .LinkAdd { Name := go "veth" ++ argsA.ContainerID.take 8,
                                          MTU := 1500, PeerName := argsA.IfName } },
       { inNs := none, call := .LinkByName argsA.IfName },
       { inNs := none, call := .LinkSetNsFd { Name := go "eth0", Index := 7 } nsA.Fd },
       { inNs := none, call := .Close nsA }] ∧
    (cmdAdd envMoveFails argsA).log.any Event.isLinkDel = false :=
  cmdAdd_move_failure_no_rollback envMoveFails argsA nsA { Name := go "eth0", Index := 7 }
    (.lib "bad file descriptor") rfl (by decide) rfl rfl rfl

/-! ## C3: Detach and the allocator's release -/

/-- C3, as stated, fails: when the allocator's release reports
"lease not found" as an error, `cmdDel` returns that error, not `nil`. -/
theorem cmdDel_lease_not_found_is_returned :
    (cmdDel envLeaseNotFound argsA).exit = .returned (some (.lib "lease not found")) ∧
    (cmdDel envLeaseNotFound argsA).exit ≠ .returned none := by
  decide

/-- C3, amended: `cmdDel` issues the allocator's release once and returns
exactly what the release returned: `nil` when the release returned `nil`, and
otherwise the release's error unchanged, whatever it reports. -/
theorem cmdDel_returns_release_result (env : Env) (args : CmdArgs) :
    (cmdDel env args).exit = .returned env.ExecDel ∧
    (cmdDel env args).log =
      [{ inNs := none, call := .ExecDel (go "host-local") args.StdinData }] ∧
    ((cmdDel env args).exit = .returned none ↔ env.ExecDel = none) := by
  cases h : env.ExecDel <;> simp [cmdDel, h, Run.call, Run.ret]

/-! ## C4, C5: the host interface name -/

/-- C4: for every container identity of at least 8 bytes the derived host
endpoint name is `veth` followed by the identity's first 8 bytes, has length
exactly 12, which is within the 15-byte limit; every link `cmdAdd` asks
`netlink.LinkAdd` to create carries that name, the request is issued whenever
the namespace opens, and any other Attach with the same identity (under any
outcomes and other arguments) requests the same name. -/
theorem hostIfaceName_deterministic (env : Env) (args : CmdArgs)
    (hid : 8 ≤ args.ContainerID.length) :
    hostIfaceName args.ContainerID = .ok (go "veth" ++ args.ContainerID.take 8) ∧
    (go "veth" ++ args.ContainerID.take 8).length = 12 ∧
    (go "veth" ++ args.ContainerID.take 8).length ≤ ifNameLimit ∧
    (∀ e ∈ (cmdAdd env args).log, ∀ link, e.call = .LinkAdd link →
      link.Name = go "veth" ++ args.ContainerID.take 8) ∧
    (∀ netns, env.GetNS = .ok netns →
      { inNs := none, call := .LinkAdd { Name := go "veth" ++ args.ContainerID.take 8,
                                         MTU := 1500, PeerName := args.IfName } }
        ∈ (cmdAdd env args).log) ∧
    (∀ (env2 : Env) (args2 : CmdArgs), args2.ContainerID = args.ContainerID →
      ∀ e1 ∈ (cmdAdd env args).log, ∀ e2 ∈ (cmdAdd env2 args2).log, ∀ l1 l2,
        e1.call = .LinkAdd l1 → e2.call = .LinkAdd l2 → l1.Name = l2.Name) := by
  have hlen : (go "veth" ++ args.ContainerID.take 8).length = 12 := by
    have h4 : (go "veth").length = 4 := by decide
    simp [h4, hid]
  have hname := cmdAdd_linkAdd_name env args hid
  refine ⟨by simp [hostIfaceName, sliceTo, hid], hlen, ?_, hname, ?_, ?_⟩
  · rw [hlen]; decide
  · intro netns hns
    simp only [cmdAdd, hns, hostIfaceName, sliceTo, hid, if_true]
    cases env.LinkAdd <;> simp [Run.call, Run.defer, Run.ret]
  · intro env2 args2 heq e1 h1 e2 h2 l1 l2 hl1 hl2
    rw [hname e1 h1 l1 hl1, cmdAdd_linkAdd_name env2 args2 (heq ▸ hid) e2 h2 l2 hl2, heq]

/-- C4 at the identity `abcdef1234` of Scenario A. -/
theorem hostIfaceName_deterministic_witness :
    8 ≤ argsA.ContainerID.length ∧
    hostIfaceName argsA.ContainerID = .ok (go "veth" ++ argsA.ContainerID.take 8) ∧
    (go "veth" ++ argsA.ContainerID.take 8).length = 12 ∧
    (go "veth" ++ argsA.ContainerID.take 8).length ≤ ifNameLimit :=
  ⟨by decide, (hostIfaceName_deterministic envOk argsA (by decide)).1,
   (hostIfaceName_deterministic envOk argsA (by decide)).2.1,
   (hostIfaceName_deterministic envOk argsA (by decide)).2.2.1⟩

/-- C5, as stated, fails: the distinct identities `abcdefgh1` and `abcdefgh2`,
both of 9 bytes, derive the same host interface name, and both Attach calls
request the same link. -/
theorem hostIfaceName_collision :
    argsB1.ContainerID ≠ argsB2.ContainerID ∧
    8 ≤ argsB1.ContainerID.length ∧ 8 ≤ argsB2.ContainerID.length ∧
    hostIfaceName argsB1.ContainerID = hostIfaceName argsB2.ContainerID ∧
    { inNs := none, call := .LinkAdd { Name := go "vethabcdefgh", MTU := 1500,
                                       PeerName := go "eth0" } }
      ∈ (cmdAdd envOk argsB1).log ∧
    { inNs := none, call := .LinkAdd { Name := go "vethabcdefgh", MTU := 1500,
                                       PeerName := go "eth0" } }
      ∈ (cmdAdd envOk argsB2).log := by
  refine ⟨by decide, by decide, by decide, rfl, by decide, by decide⟩

/-- C5, amended: for every two container identities of at least 8 bytes, the
derived host interface names are equal exactly when the identities agree on
their first 8 bytes.  Identities that differ within their first 8 bytes get
different names; distinct identities with a common 8-byte head get the same. -/
theorem hostIfaceName_eq_iff_head (a b : GoString) (ha : 8 ≤ a.length) (hb : 8 ≤ b.length) :
    hostIfaceName a = hostIfaceName b ↔ a.take 8 = b.take 8 := by
  simp [hostIfaceName, sliceTo, ha, hb]

/-- The amended C5 at the identities `server-pod` and `client-pod` of the
integration test: their names differ. -/
theorem hostIfaceName_eq_iff_head_witness :
    8 ≤ (go "server-pod").length ∧ 8 ≤ (go "client-pod").length ∧
    hostIfaceName (go "server-pod") ≠ hostIfaceName (go "client-pod") :=
  ⟨by decide, by decide, fun h =>
    absurd ((hostIfaceName_eq_iff_head (go "server-pod") (go "client-pod")
      (by decide) (by decide)).mp h) (by decide)⟩

/-! ## C6: the emitted result -/

/-- C7, as stated, fails: the leased gateway `192.168.0.1` is outside the
subnet `10.10.1.2/24` of the leased address, yet `cmdAdd` invokes
`ip.AddRoute` with it and returns the error of that call as it is. -/
theorem cmdAdd_unreachable_gateway_reaches_addRoute :
    envGatewayOutside.GetResult = .ok leaseOutside ∧
    (∀ c ∈ leaseOutside.IPs, c.Address.Contains c.Gateway = false) ∧
    { inNs := some nsA,
      call := .AddRoute defaultNet 0xC0A80001 { Name := go "eth0", Index := 2 } }
      ∈ (cmdAdd envGatewayOutside argsA).log ∧
    (cmdAdd envGatewayOutside argsA).exit =
      .returned (some (.lib "network is unreachable")) := by
  refine ⟨rfl, by decide, by decide, by decide⟩

/-- C7, amended: `cmdAdd` does not inspect the leased gateway.  For every lease
with a first IP entry `ip0`, whether or not its gateway lies in the subnet of
its address, once the steps up to the address assignment have succeeded
`cmdAdd` invokes `ip.AddRoute` for the default network with gateway
`ip0.Gateway` inside the namespace; if that call fails, its error is returned
unchanged, and otherwise `cmdAdd` goes on to print the result. -/
theorem cmdAdd_installs_route_unchecked (env : Env) (args : CmdArgs) (netns : NetNS)
    (peer link : Link) (r : RawResult) (result : Result) (ip0 : IPConfig)
    (rest : List IPConfig)
    (hns : env.GetNS = .ok netns) (hid : 8 ≤ args.ContainerID.length)
    (hadd : env.LinkAdd = none) (hpeer : env.LinkByName = .ok peer)
    (hmove : env.LinkSetNsFd = none) (hreq : env.ExecAdd = .ok r)
    (hconv : env.GetResult = .ok result) (hfwd : env.EnableIP4Forwarding = none)
    (hlink : env.NsLinkByName = .ok link) (hup : env.LinkSetUp = none)
    (hips : result.IPs = ip0 :: rest) (haddr : env.LinkAddAddr = none) :
    { inNs := some netns, call := .AddRoute defaultNet ip0.Gateway link }
      ∈ (cmdAdd env args).log ∧
    (∀ err, env.AddRoute = some err → (cmdAdd env args).exit = .returned (some err)) ∧
    (env.AddRoute = none → (cmdAdd env args).exit = .returned env.PrintResult) := by
  rw [cmdAdd_after_lease env args netns peer r result hns hid hadd hpeer hmove hreq hconv]
  cases hroute : env.AddRoute <;>
    simp [configure, index, hfwd, hlink, hup, hips, haddr, hroute, Run.call, Run.defer,
      Run.andThen, NetNS.Do, Run.ret]

/-- The amended C7 at the lease whose gateway is outside the leased subnet. -/
theorem cmdAdd_installs_route_unchecked_witness :
    leaseOutside.IPs.all (fun c => !c.Address.Contains c.Gateway) = true ∧
    { inNs := some nsA,
      call := .AddRoute defaultNet 0xC0A80001 { Name := go "eth0", Index := 2 } }
      ∈ (cmdAdd envGatewayOutside argsA).log ∧
    (cmdAdd envGatewayOutside argsA).exit =
      .returned (some (.lib "network is unreachable")) :=
  ⟨by decide,
   (cmdAdd_installs_route_unchecked envGatewayOutside argsA nsA { Name := go "eth0", Index := 7 }
      { Name := go "eth0", Index := 2 } { Reply := go "reply" } leaseOutside
      { Interface := none, Address := { IP := 0x0A0A0102, Ones := 24 }, Gateway := 0xC0A80001 }
      [] rfl (by decide) rfl rfl rfl rfl rfl rfl rfl rfl rfl rfl).1,
   (cmdAdd_installs_route_unchecked envGatewayOutside argsA nsA { Name := go "eth0", Index := 7 }
      { Name := go "eth0", Index := 2 } { Reply := go "reply" } leaseOutside
      { Interface := none, Address := { IP := 0x0A0A0102, Ones := 24 }, Gateway := 0xC0A80001 }
      [] rfl (by decide) rfl rfl rfl rfl rfl rfl rfl rfl rfl rfl).2.1 _ rfl⟩

/-! ## C8: a lease without IP entries -/

/-- C8: at an allocator reply without IP entries, with every call succeeding,
`cmdAdd` neither returns a result nor an error: reading `result.IPs[0]` is out
of range and the call panics. -/
theorem cmdAdd_empty_lease_panics :
    envEmptyLease.GetResult = .ok leaseEmpty ∧ leaseEmpty.IPs = [] ∧
    (cmdAdd envEmptyLease argsA).exit = .panicked (.indexOutOfRange 0 0) ∧
    ∀ err, (cmdAdd envEmptyLease argsA).exit ≠ .returned err := by
  refine ⟨rfl, rfl, by decide, fun err h => ?_⟩
  have hp : (cmdAdd envEmptyLease argsA).exit = .panicked (.indexOutOfRange 0 0) := by decide
  rw [hp] at h
  cases h

/-! ## C9: fail-fast ordering -/

/-- C9, as stated, fails: with `netlink.LinkSetUp` failing, the operations
`cmdAdd` performs are the nine steps through the failing one and then one
more, the deferred close of the namespace handle, which runs after the
failure; so they are not exactly the steps up to the first failing one. -/
theorem cmdAdd_close_follows_failure :
    8 ≤ argsA.ContainerID.length ∧
    (∀ result, envSetUpFails.GetResult = .ok result → result.IPs ≠ []) ∧
    throughFirstFailure envSetUpFails.failed attachOrder =
      [.openNamespace, .createLinkPair, .lookUpPeer, .movePeer, .requestLease,
       .convertResult, .enableForwarding, .lookUpInterface, .setUp] ∧
    (cmdAdd envSetUpFails argsA).log.map Event.op =
      [.openNamespace, .createLinkPair, .lookUpPeer, .movePeer, .requestLease,
       .convertResult, .enableForwarding, .lookUpInterface, .setUp, .closeNamespace] ∧
    (cmdAdd envSetUpFails argsA).log.map Event.op ≠
      throughFirstFailure envSetUpFails.failed attachOrder := by
  refine ⟨by decide, fun result h => ?_, by decide, by decide, by decide⟩
  cases h
  decide

/-- C9, amended: for every assignment of outcomes to the external calls, with
an identity of at least 8 bytes and a lease that is not empty, the operations
`cmdAdd` performs are exactly the steps of the fixed order up to and including
the first failing one, each in its namespace context (the five configuration
steps inside the target namespace, all others in the host context), followed,
whenever the namespace was opened, by the close of the namespace handle in the
host context, after a failure as after success.  `cmdAdd` returns `nil`
exactly when every step succeeded, returns an error when some step failed,
and prints a result exactly when the eleven steps before the printing
succeeded. -/
theorem cmdAdd_fail_fast (env : Env) (args : CmdArgs)
    (hid : 8 ≤ args.ContainerID.length)
    (hlease : ∀ result, env.GetResult = .ok result → result.IPs ≠ []) :
    (cmdAdd env args).log.map Event.site =
      (throughFirstFailure env.failed attachOrder).map (fun op => (op, env.context op)) ++
        (if env.failed .openNamespace then [] else [(.closeNamespace, none)]) ∧
    (cmdAdd env args).log.map Event.op =
      throughFirstFailure env.failed attachOrder ++
        (if env.failed .openNamespace then [] else [.closeNamespace]) ∧
    ((cmdAdd env args).exit = .returned none ↔ ∀ op ∈ attachOrder, env.failed op = false) ∧
    ((∃ op ∈ attachOrder, env.failed op = true) →
      ∃ err, (cmdAdd env args).exit = .returned (some err)) ∧
    (.printResult ∈ (cmdAdd env args).log.map Event.op ↔
      ∀ op ∈ attachOrder.dropLast, env.failed op = false) := by
  obtain ⟨g, la, lb, ls, ea, gr, ef, nl, su, aa, ar, pr, ed⟩ := env
  cases g with
  | error e =>
    simp [cmdAdd, configure, hostIfaceName, sliceTo, hid, index, Run.call, Run.ret, Run.defer,
      Run.andThen, Run.panic, NetNS.Do, Event.op, Event.site, Env.context,
      throughFirstFailure, attachOrder, Env.failed]
  | ok netns =>
  cases la with
  | some e =>
    simp [cmdAdd, configure, hostIfaceName, sliceTo, hid, index, Run.call, Run.ret, Run.defer,
      Run.andThen, Run.panic, NetNS.Do, Event.op, Event.site, Env.context,
      throughFirstFailure, attachOrder, Env.failed]
  | none =>
  cases lb with
  | error e =>
    simp [cmdAdd, configure, hostIfaceName, sliceTo, hid, index, Run.call, Run.ret, Run.defer,
      Run.andThen, Run.panic, NetNS.Do, Event.op, Event.site, Env.context,
      throughFirstFailure, attachOrder, Env.failed]
  | ok peer =>
  cases ls with
  | some e =>
    simp [cmdAdd, configure, hostIfaceName, sliceTo, hid, index, Run.call, Run.ret, Run.defer,
      Run.andThen, Run.panic, NetNS.Do, Event.op, Event.site, Env.context,
      throughFirstFailure, attachOrder, Env.failed]
  | none =>
  cases ea with
  | error e =>
    simp [cmdAdd, configure, hostIfaceName, sliceTo, hid, index, Run.call, Run.ret, Run.defer,
      Run.andThen, Run.panic, NetNS.Do, Event.op, Event.site, Env.context,
      throughFirstFailure, attachOrder, Env.failed]
  | ok r =>
  cases gr with
  | error e =>
    simp [cmdAdd, configure, hostIfaceName, sliceTo, hid, index, Run.call, Run.ret, Run.defer,
      Run.andThen, Run.panic, NetNS.Do, Event.op, Event.site, Env.context,
      throughFirstFailure, attachOrder, Env.failed]
  | ok result =>
  obtain ⟨ver, ifs, ips, rts⟩ := result
  cases ips with
  | nil => exact absurd rfl (hlease _ rfl)
  | cons ip0 rest =>
  cases ef with
  | some e =>
    simp [cmdAdd, configure, hostIfaceName, sliceTo, hid, index, Run.call, Run.ret, Run.defer,
      Run.andThen, Run.panic, NetNS.Do, Event.op, Event.site, Env.context,
      throughFirstFailure, attachOrder, Env.failed]
  | none =>
  cases nl with
  | error e =>
    simp [cmdAdd, configure, hostIfaceName, sliceTo, hid, index, Run.call, Run.ret, Run.defer,
      Run.andThen, Run.panic, NetNS.Do, Event.op, Event.site, Env.context,
      throughFirstFailure, attachOrder, Env.failed]
  | ok link =>
  cases su with
  | some e =>
    simp [cmdAdd, configure, hostIfaceName, sliceTo, hid, index, Run.call, Run.ret, Run.defer,
      Run.andThen, Run.panic, NetNS.Do, Event.op, Event.site, Env.context,
      throughFirstFailure, attachOrder, Env.failed]
  | none =>
  cases aa with
  | some e =>
    simp [cmdAdd, configure, hostIfaceName, sliceTo, hid, index, Run.call, Run.ret, Run.defer,
      Run.andThen, Run.panic, NetNS.Do, Event.op, Event.site, Env.context,
      throughFirstFailure, attachOrder, Env.failed]
  | none =>
  cases ar with
  | some e =>
    simp [cmdAdd, configure, hostIfaceName, sliceTo, hid, index, Run.call, Run.ret, Run.defer,
      Run.andThen, Run.panic, NetNS.Do, Event.op, Event.site, Env.context,
      throughFirstFailure, attachOrder, Env.failed]
  | none =>
  cases pr with
  | some e =>
    simp [cmdAdd, configure, hostIfaceName, sliceTo, hid, index, Run.call, Run.ret, Run.defer,
      Run.andThen, Run.panic, NetNS.Do, Event.op, Event.site, Env.context,
      throughFirstFailure, attachOrder, Env.failed]
  | none =>
    simp [cmdAdd, configure, hostIfaceName, sliceTo, hid, index, Run.call, Run.ret, Run.defer,
      Run.andThen, Run.panic, NetNS.Do, Event.op, Event.site, Env.context,
      throughFirstFailure, attachOrder, Env.failed]

/-- The amended C9 at the run in which `ip.AddRoute` fails: six host steps,
the five configuration steps inside the namespace `nsA`, no printing, then
the close of the handle in the host context. -/
theorem cmdAdd_fail_fast_witness :
    8 ≤ argsA.ContainerID.length ∧
    (∀ result, envGatewayOutside.GetResult = .ok result → result.IPs ≠ []) ∧
    (cmdAdd envGatewayOutside argsA).log.map Event.site =
      [(.openNamespace, none), (.createLinkPair, none), (.lookUpPeer, none),
       (.movePeer, none), (.requestLease, none), (.convertResult, none),
       (.enableForwarding, some nsA), (.lookUpInterface, some nsA), (.setUp, some nsA),
       (.addAddress, some nsA), (.addRoute, some nsA), (.closeNamespace, none)] ∧
    (∃ err, (cmdAdd envGatewayOutside argsA).exit = .returned (some err)) :=
  ⟨by decide, fun result h => by cases h; decide,
   (cmdAdd_fail_fast envGatewayOutside argsA (by decide)
      (fun result h => by cases h; decide)).1,
   (cmdAdd_fail_fast envGatewayOutside argsA (by decide)
      (fun result h => by cases h; decide)).2.2.2.1 ⟨.addRoute, by decide, by decide⟩⟩

/-! ## C10: identities shorter than 8 bytes -/

/-- C10: for every Attach request whose identity has fewer than 8 bytes and
whose namespace opens, `cmdAdd` returns no error value: it panics on the slice
`ContainerID[:8]`.  Its only calls are the opening of the namespace and
the deferred close of the handle, so no link creation and no allocator
request was issued. -/
theorem cmdAdd_short_identity_panics (env : Env) (args : CmdArgs) (netns : NetNS)
    (hns : env.GetNS = .ok netns) (hid : args.ContainerID.length < 8) :
    (cmdAdd env args).exit = .panicked (.sliceBounds 8 args.ContainerID.length) ∧
    (∀ err, (cmdAdd env args).exit ≠ .returned err) ∧
    (cmdAdd env args).log =
      [{ inNs := none, call := .GetNS args.Netns }, { inNs := none, call := .Close netns }] ∧
    (∀ e ∈ (cmdAdd env args).log, e.op ≠ .createLinkPair ∧ e.op ≠ .requestLease) := by
  have hnot : ¬ 8 ≤ args.ContainerID.length := by omega
  simp [cmdAdd, hostIfaceName, sliceTo, hns, hnot, Run.call, Run.defer, Run.panic, Event.op]

/-- C10 at the 3-byte identity `abc`. -/
theorem cmdAdd_short_identity_panics_witness :
    argsShort.ContainerID.length < 8 ∧
    (cmdAdd envOk argsShort).exit = .panicked (.sliceBounds 8 3) ∧
    (cmdAdd envOk argsShort).log =
      [{ inNs := none, call := .GetNS argsShort.Netns }, { inNs := none, call := .Close nsA }] :=
  ⟨by decide, (cmdAdd_short_identity_panics envOk argsShort nsA rfl (by decide)).1,
   (cmdAdd_short_identity_panics envOk argsShort nsA rfl (by decide)).2.2.1⟩

end Netter
